/-
Verification of the xbox2local synchronization engine (src/xbox2local.py,
src/update.py) against its design document.

The development shallowly embeds the program: pandas data frames become lists
of records, the reconciliation masks of lines 209-211 become list filters and
maps, datetime.strptime / strftime for the concrete format strings of the
source become executable character-list parsers and printers, and the
effectful loops (download, delete, confirmation prompts) become explicit
recursions over their inputs, with outcome types recording both normal
completion and an uncaught exception.
-/

import Mathlib

namespace Xbox2Local

/-! ## Data model

media_cols (xbox2local.py line 20) lists the columns of both the in-memory
inventory and the persisted history: id, game, type, capture_dt, download_dt,
xboxnetwork, width, height, sdr_filesize, hdr_filesize.  The Media namedtuple
(line 22) additionally carries sdr_uri and hdr_uri, which are dropped before
the rows are appended to the history (line 229). -/

/-- A row of the scanned remote inventory: the Media namedtuple of
xbox2local.py line 22. -/
structure Media where
  id : String
  game : String
  type : String
  capture_dt : String
  download_dt : String
  xboxnetwork : Bool
  width : Option Nat
  height : Option Nat
  sdr_filesize : Nat
  hdr_filesize : Nat
  sdr_uri : String
  hdr_uri : String
  deriving Repr, DecidableEq

/-- A row of history.csv: the media_cols columns (line 20), i.e. a Media row
without the two URI columns (dropped at line 229). -/
structure HistRow where
  id : String
  game : String
  type : String
  capture_dt : String
  download_dt : String
  xboxnetwork : Bool
  width : Option Nat
  height : Option Nat
  sdr_filesize : Nat
  hdr_filesize : Nat
  deriving Repr, DecidableEq

/-- dl_df.drop(columns=['sdr_uri', 'hdr_uri']) at line 229, applied to one
row. -/
def dropUris (m : Media) : HistRow :=
  { id := m.id, game := m.game, type := m.type, capture_dt := m.capture_dt,
    download_dt := m.download_dt, xboxnetwork := m.xboxnetwork,
    width := m.width, height := m.height,
    sdr_filesize := m.sdr_filesize, hdr_filesize := m.hdr_filesize }

/-! ## Reconciliation (xbox2local.py lines 209-211)

Line 210: dl_df = xnet_df.loc[~xnet_df.index.isin(history_df.index)]
Line 211: history_df.loc[~history_df.index.isin(xnet_df.index),
                         'xboxnetwork'] = False -/

/-- Line 210: the remote rows whose id is not in the history index. -/
def dl_df (xnet : List Media) (hist : List HistRow) : List Media :=
  xnet.filter fun m => ¬ hist.any fun h => h.id = m.id

/-- The rows selected by the mask of line 211: history rows whose id is not in
the remote index. -/
def newlyAbsentRows (xnet : List Media) (hist : List HistRow) : List HistRow :=
  hist.filter fun h => ¬ xnet.any fun m => m.id = h.id

/-- The remote rows whose id is also in the history index: the complement of
dl_df inside xnet_df, i.e. the intersection of the two indices. -/
def stillPresentRows (xnet : List Media) (hist : List HistRow) : List Media :=
  xnet.filter fun m => hist.any fun h => h.id = m.id

/-- Line 211 as a whole-frame operation: set xboxnetwork to False exactly on
the rows of the mask, leaving every other cell and the set of rows unchanged. -/
def markAbsent (xnet : List Media) (hist : List HistRow) : List HistRow :=
  hist.map fun h =>
    if xnet.any fun m => m.id = h.id then h else { h with xboxnetwork := false }

/-- The id set of an inventory frame (its index). -/
def idsOfMedia (xs : List Media) : Finset String := (xs.map Media.id).toFinset

/-- The id set of a history frame (its index). -/
def idsOfHist (xs : List HistRow) : Finset String := (xs.map HistRow.id).toFinset

/-! ## History write-back (lines 226-229 and 282-284)

Line 226 stamps download_dt on each downloaded row; line 228 concatenates the
(marked) history with the downloaded rows minus the URI columns; line 284
sorts by capture_dt descending and writes the file. -/

/-- Lines 211, 226, 228-229: the in-memory history at the end of a run, before
the final sort: the marked prior history followed by the downloaded rows,
each stamped with the download time and stripped of the URI columns.  (When
dl_df is empty the concat of line 228 is skipped, which coincides with
appending the empty list.) -/
def runHistoryUpdate (xnet : List Media) (hist : List HistRow) (now : String) :
    List HistRow :=
  markAbsent xnet hist ++
    (dl_df xnet hist).map fun m => { dropUris m with download_dt := now }

/-- Line 284: history_df.sort_values(by='capture_dt', ascending=False), the
frame as written to history.csv. -/
def persistHistory (hist : List HistRow) : List HistRow :=
  hist.mergeSort fun a b => b.capture_dt ≤ a.capture_dt

theorem mem_idsOfMedia (xs : List Media) (i : String) :
    i ∈ idsOfMedia xs ↔ ∃ m ∈ xs, m.id = i := by
  simp [idsOfMedia]

theorem mem_idsOfHist (xs : List HistRow) (i : String) :
    i ∈ idsOfHist xs ↔ ∃ h ∈ xs, h.id = i := by
  simp [idsOfHist]

theorem mem_dl_df (xnet : List Media) (hist : List HistRow) (m : Media) :
    m ∈ dl_df xnet hist ↔ m ∈ xnet ∧ ∀ h ∈ hist, ¬ h.id = m.id := by
  simp [dl_df]

theorem mem_newlyAbsentRows (xnet : List Media) (hist : List HistRow)
    (h : HistRow) :
    h ∈ newlyAbsentRows xnet hist ↔ h ∈ hist ∧ ∀ m ∈ xnet, ¬ m.id = h.id := by
  simp [newlyAbsentRows]

theorem mem_stillPresentRows (xnet : List Media) (hist : List HistRow)
    (m : Media) :
    m ∈ stillPresentRows xnet hist ↔ m ∈ xnet ∧ ∃ h ∈ hist, h.id = m.id := by
  simp [stillPresentRows]

theorem mem_persistHistory (hist : List HistRow) (h : HistRow) :
    h ∈ persistHistory hist ↔ h ∈ hist := by
  simp [persistHistory, List.mem_mergeSort]

/-- Claim C1: the reconciliation of lines 209-211 partitions the union of the
remote and history id sets into three pairwise disjoint sets: dl_df holds
exactly the remote ids absent from the history, the newly absent rows hold
exactly the history ids absent from the remote inventory, the still-present
rows are the intersection, and the marking of line 211 removes no record and
changes nothing but the xboxnetwork flag of the newly absent rows. -/
theorem reconciliation_partition (xnet : List Media) (hist : List HistRow) :
    idsOfMedia (dl_df xnet hist) = idsOfMedia xnet \ idsOfHist hist ∧
    idsOfHist (newlyAbsentRows xnet hist) = idsOfHist hist \ idsOfMedia xnet ∧
    idsOfMedia (stillPresentRows xnet hist) = idsOfMedia xnet ∩ idsOfHist hist ∧
    Disjoint (idsOfMedia (dl_df xnet hist))
      (idsOfHist (newlyAbsentRows xnet hist)) ∧
    Disjoint (idsOfMedia (dl_df xnet hist))
      (idsOfMedia (stillPresentRows xnet hist)) ∧
    Disjoint (idsOfHist (newlyAbsentRows xnet hist))
      (idsOfMedia (stillPresentRows xnet hist)) ∧
    idsOfMedia (dl_df xnet hist) ∪ idsOfHist (newlyAbsentRows xnet hist) ∪
        idsOfMedia (stillPresentRows xnet hist) =
      idsOfMedia xnet ∪ idsOfHist hist ∧
    (markAbsent xnet hist).length = hist.length ∧
    (∀ i : Nat, (markAbsent xnet hist)[i]? = (hist[i]?).map fun h =>
      if xnet.any fun m => m.id = h.id then h
      else { h with xboxnetwork := false }) := by
  have hD : idsOfMedia (dl_df xnet hist) = idsOfMedia xnet \ idsOfHist hist := by
    ext i
    rw [mem_idsOfMedia, Finset.mem_sdiff, mem_idsOfMedia, mem_idsOfHist]
    constructor
    · rintro ⟨m, hm, he⟩
      rw [mem_dl_df] at hm
      exact ⟨⟨m, hm.1, he⟩, fun ⟨h, hh, hhe⟩ => hm.2 h hh (he ▸ hhe)⟩
    · rintro ⟨⟨m, hm, he⟩, hno⟩
      exact ⟨m, (mem_dl_df xnet hist m).2
        ⟨hm, fun h hh hhe => hno ⟨h, hh, he ▸ hhe⟩⟩, he⟩
  have hN : idsOfHist (newlyAbsentRows xnet hist) =
      idsOfHist hist \ idsOfMedia xnet := by
    ext i
    rw [mem_idsOfHist, Finset.mem_sdiff, mem_idsOfHist, mem_idsOfMedia]
    constructor
    · rintro ⟨h, hh, he⟩
      rw [mem_newlyAbsentRows] at hh
      exact ⟨⟨h, hh.1, he⟩, fun ⟨m, hm, hme⟩ => hh.2 m hm (he ▸ hme)⟩
    · rintro ⟨⟨h, hh, he⟩, hno⟩
      exact ⟨h, (mem_newlyAbsentRows xnet hist h).2
        ⟨hh, fun m hm hme => hno ⟨m, hm, he ▸ hme⟩⟩, he⟩
  have hS : idsOfMedia (stillPresentRows xnet hist) =
      idsOfMedia xnet ∩ idsOfHist hist := by
    ext i
    rw [mem_idsOfMedia, Finset.mem_inter, mem_idsOfMedia, mem_idsOfHist]
    constructor
    · rintro ⟨m, hm, he⟩
      rw [mem_stillPresentRows] at hm
      obtain ⟨hmx, h, hh, hhe⟩ := hm
      exact ⟨⟨m, hmx, he⟩, ⟨h, hh, he ▸ hhe⟩⟩
    · rintro ⟨⟨m, hm, he⟩, ⟨h, hh, hhe⟩⟩
      exact ⟨m, (mem_stillPresentRows xnet hist m).2
        ⟨hm, h, hh, he ▸ hhe⟩, he⟩
  refine ⟨hD, hN, hS, ?_, ?_, ?_, ?_, ?_, ?_⟩
  · rw [hD, hN]; exact disjoint_sdiff_sdiff
  · rw [hD, hS]
    exact Finset.sdiff_disjoint.mono_right Finset.inter_subset_right
  · rw [hN, hS]
    exact Finset.sdiff_disjoint.mono_right Finset.inter_subset_left
  · rw [hD, hN, hS]
    ext i
    simp only [Finset.mem_union, Finset.mem_sdiff, Finset.mem_inter]
    tauto
  · simp [markAbsent]
  · intro i
    simp [markAbsent, List.getElem?_map]

/-- Claim C2: an id already in the history never enters dl_df, and a second
run over an unchanged remote inventory, starting from the history persisted
by the first run, downloads nothing. -/
theorem no_duplicate_downloads_idempotent (xnet : List Media)
    (hist : List HistRow) (now : String) :
    (∀ h ∈ hist, ∀ m ∈ dl_df xnet hist, m.id ≠ h.id) ∧
    dl_df xnet (persistHistory (runHistoryUpdate xnet hist now)) = [] := by
  constructor
  · intro h hh m hm he
    exact ((mem_dl_df xnet hist m).1 hm).2 h hh he.symm
  · have hcover : ∀ m ∈ xnet,
        ∃ x ∈ persistHistory (runHistoryUpdate xnet hist now), x.id = m.id := by
      intro m hm
      by_cases hin : ∃ h ∈ hist, h.id = m.id
      · obtain ⟨h, hh, he⟩ := hin
        refine ⟨(if xnet.any fun m2 => m2.id = h.id then h
                 else { h with xboxnetwork := false }), ?_, ?_⟩
        · rw [mem_persistHistory, runHistoryUpdate]
          exact List.mem_append_left _
            (List.mem_map_of_mem
              (fun h => if xnet.any fun m2 => m2.id = h.id then h
                        else { h with xboxnetwork := false }) hh)
        · split
          · exact he
          · exact he
      · push_neg at hin
        have hdl : m ∈ dl_df xnet hist :=
          (mem_dl_df xnet hist m).2 ⟨hm, fun h hh => hin h hh⟩
        refine ⟨{ dropUris m with download_dt := now }, ?_, rfl⟩
        rw [mem_persistHistory, runHistoryUpdate]
        exact List.mem_append_right _
          (List.mem_map_of_mem
            (fun m => { dropUris m with download_dt := now }) hdl)
    have : ∀ m ∈ xnet, m ∉ dl_df xnet
        (persistHistory (runHistoryUpdate xnet hist now)) := by
      intro m hm hcontra
      obtain ⟨x, hx, he⟩ := hcover m hm
      exact ((mem_dl_df _ _ m).1 hcontra).2 x hx he
    rcases hdl2 : dl_df xnet (persistHistory (runHistoryUpdate xnet hist now))
      with _ | ⟨m, rest⟩
    · rfl
    · exfalso
      have hm : m ∈ dl_df xnet (persistHistory (runHistoryUpdate xnet hist now)) := by
        rw [hdl2]; exact List.mem_cons_self m rest
      exact this m ((mem_dl_df _ _ m).1 hm).1 hm

/-- A sample remote screenshot record used to evaluate the theorems on
concrete inputs. -/
def mediaA : Media :=
  { id := "A", game := "G", type := "screenshot",
    capture_dt := "2024-01-01T10-00-00+0000", download_dt := "",
    xboxnetwork := true, width := some 1920, height := some 1080,
    sdr_filesize := 5, hdr_filesize := 0, sdr_uri := "uA", hdr_uri := "" }

/-- The history row corresponding to mediaA. -/
def histRowA : HistRow := dropUris mediaA

/-- Concrete instance of the no-duplicate-downloads theorem: with one remote
record whose id is already in the history, dl_df rejects it, and a second run
over the unchanged remote inventory downloads nothing. -/
theorem no_duplicate_downloads_idempotent_witness :
    (∀ h ∈ [histRowA], ∀ m ∈ dl_df [mediaA] [histRowA], m.id ≠ h.id) ∧
    dl_df [mediaA] (persistHistory (runHistoryUpdate [mediaA] [histRowA]
      "2024-02-02T00-00-00+0000")) = [] :=
  no_duplicate_downloads_idempotent [mediaA] [histRowA]
    "2024-02-02T00-00-00+0000"

/-! ## Date/time strings (xbox2local.py lines 19, 62-78, 220)

fmt_xboxdt (lines 62-78) tries datetime.strptime against the three formats
'%Y-%m-%d %H:%M:%SZ', '%Y-%m-%dT%H:%M:%SZ' and '%Y-%m-%dT%H:%M:%S.%fZ',
marks the result as UTC, and prints it with DT_FMT = '%Y-%m-%dT%H-%M-%S%z'
(line 19).  The download loop re-reads capture_dt with
datetime.strptime(media.capture_dt, DT_FMT) (line 220).

The parsers below follow CPython's _strptime: each directive is matched by a
regular-expression alternation that prefers the two-digit form (and for %Y
exactly four digits), the whole string must be consumed, and the matched
fields must then survive the datetime constructor (month lengths, second at
most 59, year at least 1).  The regex is compiled with IGNORECASE, so a
literal letter in a format matches either case.  parseField's two-digit-first,
one-digit-fallback order coincides with the regex alternation order; since in
every format used here each numeric field is followed by a non-digit literal
or the end of the pattern, the greedy choice agrees with full backtracking. -/

/-- A parsed datetime: the fields of a Python datetime relevant here. -/
structure XDateTime where
  year : Nat
  month : Nat
  day : Nat
  hour : Nat
  minute : Nat
  second : Nat
  microsecond : Nat
  deriving Repr, DecidableEq

/-- The numeric value of a decimal digit character, if it is one. -/
def digitVal (c : Char) : Option Nat :=
  if '0' ≤ c ∧ c ≤ '9' then some (c.toNat - '0'.toNat) else none

/-- strptime %Y: exactly four decimal digits. -/
def parseY : List Char → Option (Nat × List Char)
  | a :: b :: c :: d :: rest =>
    match digitVal a, digitVal b, digitVal c, digitVal d with
    | some w, some x, some y, some z => some (w * 1000 + x * 100 + y * 10 + z, rest)
    | _, _, _, _ => none
  | _ => none

/-- A two-digit-preferring numeric directive (%m, %d, %H, %M, %S): take two
digits when their value passes valid2, fall back to one digit when it passes
valid1, fail otherwise.  valid2/valid1 encode the value sets of the
corresponding strptime regex alternations. -/
def parseField (valid2 valid1 : Nat → Bool) : List Char → Option (Nat × List Char)
  | [] => none
  | a :: rest =>
    match digitVal a with
    | none => none
    | some x =>
      match rest with
      | [] => if valid1 x then some (x, []) else none
      | b :: rest2 =>
        match digitVal b with
        | none => if valid1 x then some (x, b :: rest2) else none
        | some y =>
          if valid2 (10 * x + y) then some (10 * x + y, rest2)
          else if valid1 x then some (x, b :: rest2) else none

/-- %m two-digit alternatives 1[0-2] and 0[1-9]: values 1 to 12. -/
def valid2m (v : Nat) : Bool := 1 ≤ v && v ≤ 12
/-- %m (and %d) one-digit alternative [1-9]. -/
def valid1m (v : Nat) : Bool := 1 ≤ v
/-- %d two-digit alternatives 3[01], [12] digit and 0[1-9]: values 1 to 31. -/
def valid2d (v : Nat) : Bool := 1 ≤ v && v ≤ 31
/-- %H two-digit alternatives 2[0-3] and [0-1] digit: values 0 to 23. -/
def valid2H (v : Nat) : Bool := v ≤ 23
/-- %M two-digit alternative [0-5] digit: values 0 to 59. -/
def valid2M (v : Nat) : Bool := v ≤ 59
/-- %S two-digit alternatives 6[0-1] and [0-5] digit: values 0 to 61. -/
def valid2S (v : Nat) : Bool := v ≤ 61
/-- %H, %M, %S one-digit alternative: any digit. -/
def valid1any (_ : Nat) : Bool := true

/-- A literal character of the format.  _strptime compiles its regex with
IGNORECASE, so a literal letter matches both cases; non-letters are
unaffected by toLower. -/
def parseLit (c : Char) : List Char → Option (List Char)
  | [] => none
  | x :: rest => if x.toLower = c.toLower then some rest else none

/-- Up to n leading decimal digits of the input. -/
def takeDigits : Nat → List Char → List Nat × List Char
  | 0, cs => ([], cs)
  | _ + 1, [] => ([], [])
  | n + 1, c :: cs =>
    match digitVal c with
    | none => ([], c :: cs)
    | some d =>
      match takeDigits n cs with
      | (ds, rest) => (d :: ds, rest)

/-- The value of a big-endian digit list. -/
def digitsVal (ds : List Nat) : Nat := ds.foldl (fun a d => 10 * a + d) 0

/-- strptime %f: one to six digits, right-padded with zeros to microseconds. -/
def parseFrac (cs : List Char) : Option (Nat × List Char) :=
  match takeDigits 6 cs with
  | ([], _) => none
  | (ds, rest) => some (digitsVal ds * 10 ^ (6 - ds.length), rest)

/-- The leap-year rule used by the datetime constructor. -/
def isLeap (y : Nat) : Bool := y % 4 == 0 && (y % 100 != 0 || y % 400 == 0)

/-- Length of a month, as enforced by the datetime constructor. -/
def daysInMonth (y m : Nat) : Nat :=
  if m = 2 then (if isLeap y then 29 else 28)
  else if m = 4 ∨ m = 6 ∨ m = 9 ∨ m = 11 then 30
  else 31

/-- The validation done by the datetime constructor after the regex match:
MINYEAR ≤ year ≤ MAXYEAR, 1 ≤ month ≤ 12, 1 ≤ day ≤ month length,
hour ≤ 23, minute ≤ 59, second ≤ 59, microsecond ≤ 999999. -/
def validFields (dt : XDateTime) : Bool :=
  1 ≤ dt.year && dt.year ≤ 9999 && 1 ≤ dt.month && dt.month ≤ 12 &&
  1 ≤ dt.day && dt.day ≤ daysInMonth dt.year dt.month &&
  dt.hour ≤ 23 && dt.minute ≤ 59 && dt.second ≤ 59 &&
  dt.microsecond ≤ 999999

/-- The datetime constructor check wrapped for Option. -/
def checkFields (dt : XDateTime) : Option XDateTime :=
  if validFields dt then some dt else none

/-- Regex phase of strptime for '%Y-%m-%d %H:%M:%SZ'. -/
def rawParseSpace (cs : List Char) : Option XDateTime := do
  let (y, cs) ← parseY cs
  let cs ← parseLit '-' cs
  let (mo, cs) ← parseField valid2m valid1m cs
  let cs ← parseLit '-' cs
  let (d, cs) ← parseField valid2d valid1m cs
  let cs ← parseLit ' ' cs
  let (h, cs) ← parseField valid2H valid1any cs
  let cs ← parseLit ':' cs
  let (mi, cs) ← parseField valid2M valid1any cs
  let cs ← parseLit ':' cs
  let (s, cs) ← parseField valid2S valid1any cs
  let cs ← parseLit 'Z' cs
  if cs = [] then some ⟨y, mo, d, h, mi, s, 0⟩ else none

/-- Regex phase of strptime for '%Y-%m-%dT%H:%M:%SZ'. -/
def rawParseT (cs : List Char) : Option XDateTime := do
  let (y, cs) ← parseY cs
  let cs ← parseLit '-' cs
  let (mo, cs) ← parseField valid2m valid1m cs
  let cs ← parseLit '-' cs
  let (d, cs) ← parseField valid2d valid1m cs
  let cs ← parseLit 'T' cs
  let (h, cs) ← parseField valid2H valid1any cs
  let cs ← parseLit ':' cs
  let (mi, cs) ← parseField valid2M valid1any cs
  let cs ← parseLit ':' cs
  let (s, cs) ← parseField valid2S valid1any cs
  let cs ← parseLit 'Z' cs
  if cs = [] then some ⟨y, mo, d, h, mi, s, 0⟩ else none

/-- Regex phase of strptime for '%Y-%m-%dT%H:%M:%S.%fZ'. -/
def rawParseFrac (cs : List Char) : Option XDateTime := do
  let (y, cs) ← parseY cs
  let cs ← parseLit '-' cs
  let (mo, cs) ← parseField valid2m valid1m cs
  let cs ← parseLit '-' cs
  let (d, cs) ← parseField valid2d valid1m cs
  let cs ← parseLit 'T' cs
  let (h, cs) ← parseField valid2H valid1any cs
  let cs ← parseLit ':' cs
  let (mi, cs) ← parseField valid2M valid1any cs
  let cs ← parseLit ':' cs
  let (s, cs) ← parseField valid2S valid1any cs
  let cs ← parseLit '.' cs
  let (f, cs) ← parseFrac cs
  let cs ← parseLit 'Z' cs
  if cs = [] then some ⟨y, mo, d, h, mi, s, f⟩ else none

/-- datetime.strptime(datestr, '%Y-%m-%d %H:%M:%SZ'). -/
def strptimeSpace (s : String) : Option XDateTime :=
  (rawParseSpace s.toList).bind checkFields

/-- datetime.strptime(datestr, '%Y-%m-%dT%H:%M:%SZ'). -/
def strptimeT (s : String) : Option XDateTime :=
  (rawParseT s.toList).bind checkFields

/-- datetime.strptime(datestr, '%Y-%m-%dT%H:%M:%S.%fZ'). -/
def strptimeFrac (s : String) : Option XDateTime :=
  (rawParseFrac s.toList).bind checkFields

/-- The parsing half of fmt_xboxdt (lines 70-77): try the three formats in
order, the first success wins; every ValueError falls through to the next
format, and if all three fail line 78 raises. -/
def xboxParse (s : String) : Option XDateTime :=
  match strptimeSpace s with
  | some dt => some dt
  | none =>
    match strptimeT s with
    | some dt => some dt
    | none => strptimeFrac s

/-- Decimal digits of a two-digit zero-padded field (%m, %d, %H, %M, %S of
strftime for values up to 99). -/
def pad2L (n : Nat) : List Char :=
  [Nat.digitChar (n / 10 % 10), Nat.digitChar (n % 10)]

/-- Decimal digits of the year as printed by strftime %Y for the four-digit
years this program handles (the capture years of the three remote formats are
read by a four-digit %Y; below 1000 the C library's %Y padding is
platform-dependent, so the development sticks to four-digit years). -/
def pad4L (n : Nat) : List Char :=
  [Nat.digitChar (n / 1000 % 10), Nat.digitChar (n / 100 % 10),
   Nat.digitChar (n / 10 % 10), Nat.digitChar (n % 10)]

/-- dt.strftime(DT_FMT) for a UTC-aware datetime: DT_FMT is
'%Y-%m-%dT%H-%M-%S%z' (line 19) and %z of the UTC timezone prints +0000.
The microsecond field is not printed (DT_FMT has no %f). -/
def fmtChars (dt : XDateTime) : List Char :=
  pad4L dt.year ++ '-' :: (pad2L dt.month ++ '-' :: (pad2L dt.day ++
    'T' :: (pad2L dt.hour ++ '-' :: (pad2L dt.minute ++ '-' ::
      (pad2L dt.second ++ ['+', '0', '0', '0', '0'])))))

/-- String form of the canonical DT_FMT output. -/
def strftimeDtFmtUtc (dt : XDateTime) : String := String.mk (fmtChars dt)

/-- fmt_xboxdt (lines 62-78): parse with the three remote formats, mark the
result UTC (dt.replace(tzinfo=timezone.utc), which keeps the fields), and
print it with DT_FMT; none models the ValueError of line 78. -/
def fmt_xboxdt (s : String) : Option String :=
  (xboxParse s).map strftimeDtFmtUtc

/-- strptime %z, seconds of offset: the regex alternation
[+-] two digits, optional colon, [0-5] digit, optionally (optional colon,
[0-5] digit, optional fraction of one to six digits), or a literal
case-sensitive Z; followed by the timezone constructor's requirement that the
absolute offset stay below 24 hours.  The optional seconds group either
matches completely or is not taken, which matches the regex because %z is the
last directive of DT_FMT. -/
def parseZSecondsGroup (cs : List Char) : Option (Nat × List Char) :=
  let cs2 := match cs with
    | ':' :: r => r
    | r => r
  match cs2 with
  | a :: b :: rest =>
    match digitVal a, digitVal b with
    | some x, some y =>
      if x ≤ 5 then
        match rest with
        | '.' :: r2 =>
          match takeDigits 6 r2 with
          | ([], _) => some (10 * x + y, rest)
          | (_, r3) => some (10 * x + y, r3)
        | _ => some (10 * x + y, rest)
      else none
    | _, _ => none
  | _ => none

/-- strptime %z: see parseZSecondsGroup.  Returns the offset in seconds. -/
def parseZ : List Char → Option (Int × List Char)
  | [] => none
  | 'Z' :: rest => some (0, rest)
  | c :: rest =>
    if c = '+' ∨ c = '-' then
      match rest with
      | a :: b :: rest2 =>
        match digitVal a, digitVal b with
        | some x, some y =>
          let hh := 10 * x + y
          let cs3 := match rest2 with
            | ':' :: r => r
            | r => r
          match cs3 with
          | m1 :: m2 :: rest4 =>
            match digitVal m1, digitVal m2 with
            | some u, some v =>
              if u ≤ 5 then
                let mm := 10 * u + v
                let secs : Nat :=
                  match parseZSecondsGroup rest4 with
                  | some (ss, _) => hh * 3600 + mm * 60 + ss
                  | none => hh * 3600 + mm * 60
                let rest5 :=
                  match parseZSecondsGroup rest4 with
                  | some (_, r) => r
                  | none => rest4
                if secs < 86400 then
                  some (if c = '-' then -(secs : Int) else (secs : Int), rest5)
                else none
              else none
            | _, _ => none
          | _ => none
        | _, _ => none
      | _ => none
    else none

/-- Regex phase of datetime.strptime(s, DT_FMT) (line 220):
'%Y-%m-%dT%H-%M-%S%z'. -/
def rawParseDtFmt (cs : List Char) : Option (XDateTime × Int) := do
  let (y, cs) ← parseY cs
  let cs ← parseLit '-' cs
  let (mo, cs) ← parseField valid2m valid1m cs
  let cs ← parseLit '-' cs
  let (d, cs) ← parseField valid2d valid1m cs
  let cs ← parseLit 'T' cs
  let (h, cs) ← parseField valid2H valid1any cs
  let cs ← parseLit '-' cs
  let (mi, cs) ← parseField valid2M valid1any cs
  let cs ← parseLit '-' cs
  let (s, cs) ← parseField valid2S valid1any cs
  let (off, cs) ← parseZ cs
  if cs = [] then some (⟨y, mo, d, h, mi, s, 0⟩, off) else none

/-- Constructor validation for an aware datetime parsed with DT_FMT. -/
def checkFieldsTz (p : XDateTime × Int) : Option (XDateTime × Int) :=
  if validFields p.1 then some p else none

/-- datetime.strptime(s, DT_FMT) (line 220), returning the naive fields and
the offset of the attached timezone in seconds. -/
def strptimeDtFmt (s : String) : Option (XDateTime × Int) :=
  (rawParseDtFmt s.toList).bind checkFieldsTz

/-! ### Instants

Converting a parsed datetime to an absolute count of seconds (proleptic
Gregorian calendar, seconds since 0001-01-01 00:00:00 UTC, microseconds
discarded), the value compared when two datetimes must denote the same
instant and the value passed (up to the fixed Unix-epoch shift) to os.utime
by download_uri. -/

/-- Days in all years strictly before y (year 1 is the first). -/
def daysBeforeYear (y : Nat) : Nat :=
  365 * (y - 1) + (y - 1) / 4 - (y - 1) / 100 + (y - 1) / 400

/-- Days in the months of year y strictly before month m. -/
def daysBeforeMonth (y m : Nat) : Nat :=
  (match m with
   | 1 => 0 | 2 => 31 | 3 => 59 | 4 => 90 | 5 => 120 | 6 => 151
   | 7 => 181 | 8 => 212 | 9 => 243 | 10 => 273 | 11 => 304 | _ => 334)
  + (if 3 ≤ m ∧ isLeap y then 1 else 0)

/-- Seconds since 0001-01-01 00:00:00 of the naive fields. -/
def epochSecs (dt : XDateTime) : Nat :=
  (daysBeforeYear dt.year + daysBeforeMonth dt.year dt.month + (dt.day - 1))
      * 86400
    + dt.hour * 3600 + dt.minute * 60 + dt.second

/-- The absolute instant of an aware datetime (fields plus offset in
seconds): what Python's datetime.timestamp() returns up to the constant
Unix-epoch shift, and therefore what astimezone() preserves. -/
def timestampSecs (dt : XDateTime) (offSecs : Int) : Int :=
  (epochSecs dt : Int) - offSecs

/-! ### Round-trip lemmas for the canonical format -/

theorem digitVal_digitChar {d : Nat} (h : d < 10) :
    digitVal (Nat.digitChar d) = some d := by
  interval_cases d <;> decide

theorem parseY_pad4 {y : Nat} (hy : y ≤ 9999) (rest : List Char) :
    parseY (pad4L y ++ rest) = some (y, rest) := by
  have ha := digitVal_digitChar (show y / 1000 % 10 < 10 from
    Nat.mod_lt _ (by norm_num))
  have hb := digitVal_digitChar (show y / 100 % 10 < 10 from
    Nat.mod_lt _ (by norm_num))
  have hc := digitVal_digitChar (show y / 10 % 10 < 10 from
    Nat.mod_lt _ (by norm_num))
  have hd := digitVal_digitChar (show y % 10 < 10 from
    Nat.mod_lt _ (by norm_num))
  simp only [pad4L, List.cons_append, List.nil_append, parseY, ha, hb, hc, hd,
    Option.some.injEq, Prod.mk.injEq]
  exact ⟨by omega, trivial⟩

theorem parseField_pad2 (valid2 valid1 : Nat → Bool) {n : Nat} (h99 : n ≤ 99)
    (hval : valid2 n = true) (rest : List Char) :
    parseField valid2 valid1 (pad2L n ++ rest) = some (n, rest) := by
  have ha := digitVal_digitChar (show n / 10 % 10 < 10 from
    Nat.mod_lt _ (by norm_num))
  have hb := digitVal_digitChar (show n % 10 < 10 from
    Nat.mod_lt _ (by norm_num))
  have hn : 10 * (n / 10 % 10) + n % 10 = n := by omega
  simp only [pad2L, List.cons_append, List.nil_append, parseField, ha, hb, hn,
    hval, if_true]

theorem parseLit_self (c : Char) (rest : List Char) :
    parseLit c (c :: rest) = some rest := by
  simp [parseLit]

theorem parseZ_plus0000 : parseZ ['+', '0', '0', '0', '0'] = some (0, []) := by
  decide

theorem daysInMonth_le_31 (y m : Nat) : daysInMonth y m ≤ 31 := by
  unfold daysInMonth
  split
  · split <;> omega
  · split <;> omega

/-- The regex phase of the DT_FMT parser inverts the canonical printer on
in-range fields. -/
theorem rawParseDtFmt_fmtChars (y mo d h mi s f : Nat) (hy : y ≤ 9999)
    (hmo1 : 1 ≤ mo) (hmo2 : mo ≤ 12) (hd1 : 1 ≤ d) (hd2 : d ≤ 31)
    (hh : h ≤ 23) (hmi : mi ≤ 59) (hs : s ≤ 59) :
    rawParseDtFmt (fmtChars ⟨y, mo, d, h, mi, s, f⟩) =
      some (⟨y, mo, d, h, mi, s, 0⟩, 0) := by
  have hmoV : valid2m mo = true := by simp only [valid2m, Bool.and_eq_true, decide_eq_true_eq]; omega
  have hdV : valid2d d = true := by simp only [valid2d, Bool.and_eq_true, decide_eq_true_eq]; omega
  have hhV : valid2H h = true := by simp only [valid2H, Bool.and_eq_true, decide_eq_true_eq]; omega
  have hmiV : valid2M mi = true := by simp only [valid2M, Bool.and_eq_true, decide_eq_true_eq]; omega
  have hsV : valid2S s = true := by simp only [valid2S, Bool.and_eq_true, decide_eq_true_eq]; omega
  have hmo99 : mo ≤ 99 := by omega
  have hd99 : d ≤ 99 := by omega
  have hh99 : h ≤ 99 := by omega
  have hmi99 : mi ≤ 99 := by omega
  have hs99 : s ≤ 99 := by omega
  simp only [fmtChars, rawParseDtFmt, Option.bind_eq_bind, parseY_pad4 hy,
    Option.some_bind, parseLit_self,
    parseField_pad2 valid2m valid1m hmo99 hmoV,
    parseField_pad2 valid2d valid1m hd99 hdV,
    parseField_pad2 valid2H valid1any hh99 hhV,
    parseField_pad2 valid2M valid1any hmi99 hmiV,
    parseField_pad2 valid2S valid1any hs99 hsV,
    parseZ_plus0000, if_true]

/-- Strings printed with DT_FMT for valid four-digit-year fields are read
back by the DT_FMT parser of line 220 to the same fields (with the unprinted
microseconds zeroed) and a UTC offset. -/
theorem strptimeDtFmt_strftime (dt : XDateTime) (hv : validFields dt = true) :
    strptimeDtFmt (strftimeDtFmtUtc dt) =
      some ({ dt with microsecond := 0 }, 0) := by
  obtain ⟨y, mo, d, h, mi, s, f⟩ := dt
  simp only [validFields, Bool.and_eq_true, decide_eq_true_eq] at hv
  obtain ⟨⟨⟨⟨⟨⟨⟨⟨⟨h1, h2⟩, h3⟩, h4⟩, h5⟩, h6⟩, h7⟩, h8⟩, h9⟩, h10⟩ := hv
  have hd31 : d ≤ 31 := le_trans h6 (daysInMonth_le_31 y mo)
  have hlist : (strftimeDtFmtUtc ⟨y, mo, d, h, mi, s, f⟩).toList =
      fmtChars ⟨y, mo, d, h, mi, s, f⟩ := rfl
  rw [strptimeDtFmt, hlist,
    rawParseDtFmt_fmtChars y mo d h mi s f h2 h3 h4 h5 hd31 h7 h8 h9]
  have hv2 : validFields ⟨y, mo, d, h, mi, s, 0⟩ = true := by
    simp only [validFields, Bool.and_eq_true, decide_eq_true_eq]
    refine ⟨⟨⟨⟨⟨⟨⟨⟨⟨h1, h2⟩, h3⟩, h4⟩, h5⟩, h6⟩, h7⟩, h8⟩, h9⟩, by omega⟩
  simp [checkFieldsTz, hv2]

/-- Success of the datetime constructor check. -/
theorem checkFields_eq_some {a b : XDateTime} (h : checkFields a = some b) :
    b = a ∧ validFields a = true := by
  unfold checkFields at h
  by_cases hv : validFields a = true
  · rw [hv] at h
    simp at h
    exact ⟨h.symm, hv⟩
  · simp only [Bool.not_eq_true] at hv
    rw [hv] at h
    simp at h

/-- Successful parses carry constructor-valid fields. -/
theorem xboxParse_valid {s : String} {dt : XDateTime}
    (h : xboxParse s = some dt) : validFields dt = true := by
  unfold xboxParse at h
  rcases h1 : strptimeSpace s with _ | dt1
  · rw [h1] at h
    rcases h2 : strptimeT s with _ | dt2
    · rw [h2] at h
      unfold strptimeFrac at h
      rcases h3 : rawParseFrac s.toList with _ | dt3
      · rw [h3] at h; simp at h
      · rw [h3] at h
        simp only [Option.some_bind] at h
        exact ((checkFields_eq_some h).1 ▸ (checkFields_eq_some h).2)
    · rw [h2] at h
      simp only [Option.some.injEq] at h
      subst h
      unfold strptimeT at h2
      rcases h3 : rawParseT s.toList with _ | dt3
      · rw [h3] at h2; simp at h2
      · rw [h3] at h2
        simp only [Option.some_bind] at h2
        exact ((checkFields_eq_some h2).1 ▸ (checkFields_eq_some h2).2)
  · rw [h1] at h
    simp only [Option.some.injEq] at h
    subst h
    unfold strptimeSpace at h1
    rcases h3 : rawParseSpace s.toList with _ | dt3
    · rw [h3] at h1; simp at h1
    · rw [h3] at h1
      simp only [Option.some_bind] at h1
      exact ((checkFields_eq_some h1).1 ▸ (checkFields_eq_some h1).2)

/-- Claim C3 counterexample: the canonical formatter's output is not
re-readable by the same three-format parse function.  fmt_xboxdt maps a
supported raw string to its canonical DT_FMT form, and fmt_xboxdt applied to
that canonical form raises (none): the canonical form separates the time
fields with hyphens and carries a +0000 offset, which none of the three
remote formats accepts. -/
theorem fmt_xboxdt_output_not_reparseable :
    fmt_xboxdt "2024-01-01 10:00:00Z" = some "2024-01-01T10-00-00+0000" ∧
    fmt_xboxdt "2024-01-01T10-00-00+0000" = none := by
  constructor <;> decide

/-- Claim C3 (amended): for every raw timestamp string in one of the three
supported remote formats, the canonical formatter's output is re-read — by
the DT_FMT parser the program itself uses on canonical strings (line 220),
not by the three-format parse function, which rejects it — to the same
fields with the unprinted sub-second part zeroed and a UTC offset, hence to
the same instant at 1-second precision.  (Restricted to four-digit capture
years, where the zero-padded %Y model of the printer is exact.) -/
theorem fmt_xboxdt_roundtrip (raw out : String) (dt : XDateTime)
    (hp : xboxParse raw = some dt) (hout : fmt_xboxdt raw = some out)
    (hy : 1000 ≤ dt.year) :
    strptimeDtFmt out = some ({ dt with microsecond := 0 }, 0) ∧
    timestampSecs { dt with microsecond := 0 } 0 = timestampSecs dt 0 := by
  have hv := xboxParse_valid hp
  have hy2 : 1 ≤ dt.year := by omega
  have hout2 : out = strftimeDtFmtUtc dt := by
    unfold fmt_xboxdt at hout
    rw [hp] at hout
    simp only [Option.map_some', Option.some.injEq] at hout
    exact hout.symm
  subst hout2
  exact ⟨strptimeDtFmt_strftime dt hv, rfl⟩

/-- Concrete instance of the amended round-trip: the canonical form of
2024-01-01 10:00:00Z re-reads under the DT_FMT parser to the same fields
with a zero offset. -/
theorem fmt_xboxdt_roundtrip_witness :
    strptimeDtFmt "2024-01-01T10-00-00+0000" =
      some (⟨2024, 1, 1, 10, 0, 0, 0⟩, 0) ∧
    timestampSecs ⟨2024, 1, 1, 10, 0, 0, 0⟩ 0 =
      timestampSecs ⟨2024, 1, 1, 10, 0, 0, 0⟩ 0 :=
  fmt_xboxdt_roundtrip "2024-01-01 10:00:00Z" "2024-01-01T10-00-00+0000"
    ⟨2024, 1, 1, 10, 0, 0, 0⟩ (by decide) (by decide) (by decide)

/-- Claim C8: for every input string matching none of the three known remote
formats the parse of fmt_xboxdt fails (line 78 raises) and no default time is
substituted — every successful output is the canonical UTC print of fields
actually parsed from the input and validated by the datetime constructor —
and for every string matching a supported format fmt_xboxdt succeeds with the
parsed fields marked as UTC (dt.replace(tzinfo=timezone.utc), line 74, which
the canonical print records as the +0000 offset). -/
theorem fmt_xboxdt_error_handling (s : String) :
    (strptimeSpace s = none → strptimeT s = none → strptimeFrac s = none →
      fmt_xboxdt s = none) ∧
    (∀ out, fmt_xboxdt s = some out →
      ∃ dt, xboxParse s = some dt ∧ validFields dt = true ∧
        out = strftimeDtFmtUtc dt) ∧
    (∀ dt, xboxParse s = some dt → fmt_xboxdt s = some (strftimeDtFmtUtc dt)) := by
  refine ⟨?_, ?_, ?_⟩
  · intro h1 h2 h3
    unfold fmt_xboxdt xboxParse
    rw [h1, h2, h3]
    rfl
  · intro out hout
    unfold fmt_xboxdt at hout
    rcases hp : xboxParse s with _ | dt
    · rw [hp] at hout; exact Option.noConfusion hout
    · rw [hp] at hout
      simp only [Option.map_some', Option.some.injEq] at hout
      exact ⟨dt, rfl, xboxParse_valid hp, hout.symm⟩
  · intro dt hp
    unfold fmt_xboxdt
    rw [hp]
    rfl

/-- Concrete instance of the error-handling theorem: an unsupported string is
rejected, a supported one is canonically printed. -/
theorem fmt_xboxdt_error_handling_witness :
    fmt_xboxdt "January 1, 2024" = none ∧
    fmt_xboxdt "2024-01-01T10:00:00Z" =
      some (strftimeDtFmtUtc ⟨2024, 1, 1, 10, 0, 0, 0⟩) :=
  ⟨(fmt_xboxdt_error_handling "January 1, 2024").1
      (by decide) (by decide) (by decide),
   (fmt_xboxdt_error_handling "2024-01-01T10:00:00Z").2.2
      ⟨2024, 1, 1, 10, 0, 0, 0⟩ (by decide)⟩

/-! ## The download loop (xbox2local.py lines 97-109 and 214-226)

For each row of dl_df (line 216): fpath = osp.join(media_dir, media.game,
media.capture_dt) (line 218); ext is '.png' for screenshots and '.mp4'
otherwise (line 219); accmod_dt = strptime(capture_dt, DT_FMT).astimezone()
(line 220), the capture instant converted to the local timezone; download_uri
fetches the SDR asset to fpath+ext (line 221) and, when hdr_uri is nonempty,
the HDR companion to fpath+'_hdr.jxr' (lines 223-224); line 226 stamps
download_dt with the current wall-clock time.  download_uri (lines 97-109)
sanitizes the path (an external collaborator, kept as a parameter), runs
curl, and then calls os.utime with the accmod_dt timestamp for both the
access and the modify time — astimezone changes the representation, not the
instant, and timestamp() returns that instant. -/

/-- Line 219: extension by media kind. -/
def extOf (ty : String) : String := if ty = "screenshot" then ".png" else ".mp4"

/-- osp.join of the three path segments of line 218 (POSIX separator). -/
def osJoin3 (a b c : String) : String := a ++ "/" ++ b ++ "/" ++ c

/-- What one iteration of the download loop writes: the (sanitized) SDR
target path, the optional HDR companion path, the single epoch value os.utime
stores as both the access and the modify time, and the download_dt stamp of
line 226. -/
structure DownloadStep where
  sdrPath : String
  hdrPath : Option String
  utimeSecs : Int
  download_dt : String
  deriving Repr, DecidableEq

/-- Lines 216-226 for one dl_df row: none models the ValueError thrown by
strptime at line 220 when capture_dt is not in DT_FMT form (which would abort
the run).  sanitize is the external pathvalidate.sanitize_filepath
collaborator of download_uri (line 106); nowStr is the
datetime.now().astimezone() string of line 226. -/
def downloadStep (sanitize : String → String) (media_dir : String)
    (m : Media) (nowStr : String) : Option DownloadStep :=
  match strptimeDtFmt m.capture_dt with
  | none => none
  | some (dt, off) =>
    some { sdrPath := sanitize (osJoin3 media_dir m.game m.capture_dt
             ++ extOf m.type),
           hdrPath := if m.hdr_uri ≠ "" then
             some (sanitize (osJoin3 media_dir m.game m.capture_dt
               ++ "_hdr.jxr")) else none,
           utimeSecs := timestampSecs dt off,
           download_dt := nowStr }

/-- Claim C4: for a dl_df record whose capture_dt parses under DT_FMT (every
record produced by the scan does, since capture_dt is fmt_xboxdt output), the
download loop places the SDR file at the deterministic path
media_dir/game/capture_dt with extension .png for screenshots and .mp4
otherwise, the optional HDR companion at the same stem with suffix _hdr.jxr
exactly when hdr_uri is nonempty, and sets both file timestamps to the
capture instant (astimezone-converted to local time, which preserves the
instant) — a value independent of the download time, which is recorded only
in the download_dt stamp. -/
theorem download_step_spec (sanitize : String → String) (media_dir : String)
    (m : Media) (nowStr : String) (dt : XDateTime) (off : Int)
    (hp : strptimeDtFmt m.capture_dt = some (dt, off)) :
    downloadStep sanitize media_dir m nowStr =
      some { sdrPath := sanitize (media_dir ++ "/" ++ m.game ++ "/" ++
               m.capture_dt ++ extOf m.type),
             hdrPath := if m.hdr_uri ≠ "" then
               some (sanitize (media_dir ++ "/" ++ m.game ++ "/" ++
                 m.capture_dt ++ "_hdr.jxr")) else none,
             utimeSecs := timestampSecs dt off,
             download_dt := nowStr } ∧
    (m.type = "screenshot" → extOf m.type = ".png") ∧
    (m.type ≠ "screenshot" → extOf m.type = ".mp4") ∧
    (∀ nowStr2, (downloadStep sanitize media_dir m nowStr).map
        DownloadStep.utimeSecs =
      (downloadStep sanitize media_dir m nowStr2).map
        DownloadStep.utimeSecs) := by
  refine ⟨?_, ?_, ?_, ?_⟩
  · unfold downloadStep
    rw [hp]
    rfl
  · intro h
    simp [extOf, h]
  · intro h
    simp [extOf, h]
  · intro nowStr2
    unfold downloadStep
    rw [hp]
    rfl

/-- Concrete instance of the download-step theorem at the sample record. -/
theorem download_step_spec_witness :
    downloadStep id "media" mediaA "2024-02-02T00-00-00+0000" =
      some { sdrPath := id ("media" ++ "/" ++ mediaA.game ++ "/" ++
               mediaA.capture_dt ++ extOf mediaA.type),
             hdrPath := if mediaA.hdr_uri ≠ "" then
               some (id ("media" ++ "/" ++ mediaA.game ++ "/" ++
                 mediaA.capture_dt ++ "_hdr.jxr")) else none,
             utimeSecs := timestampSecs ⟨2024, 1, 1, 10, 0, 0, 0⟩ 0,
             download_dt := "2024-02-02T00-00-00+0000" } ∧
    (mediaA.type = "screenshot" → extOf mediaA.type = ".png") ∧
    (mediaA.type ≠ "screenshot" → extOf mediaA.type = ".mp4") ∧
    (∀ nowStr2, (downloadStep id "media" mediaA
        "2024-02-02T00-00-00+0000").map DownloadStep.utimeSecs =
      (downloadStep id "media" mediaA nowStr2).map
        DownloadStep.utimeSecs) :=
  download_step_spec id "media" mediaA "2024-02-02T00-00-00+0000"
    ⟨2024, 1, 1, 10, 0, 0, 0⟩ 0 (by decide)

/-! ## Batch behaviour of the download loop (claim C9)

The loop body of lines 216-226 contains no try/except: any exception raised
while handling one record (download_uri's os.utime on a file curl failed to
produce, line 109, or strptime at line 220) propagates and aborts the whole
run.  The fetch oracle abstracts whether curl produced the file for a URI. -/

/-- Outcome of a batch loop: normal completion, or an uncaught exception
with the work finished before the raise. -/
inductive BatchOutcome (α : Type) where
  | finished (done : List α)
  | crashed (done : List α)
  deriving Repr, DecidableEq

/-- Lines 214-226 over the whole dl_df: process records in order; a record
whose SDR fetch (or HDR fetch, when one is due) fails raises out of the loop,
keeping only the steps already performed; a capture_dt that strptime rejects
does the same. -/
def downloadLoop (fetch : String → Bool) (sanitize : String → String)
    (media_dir : String) (nowStr : String) :
    List Media → BatchOutcome DownloadStep
  | [] => .finished []
  | m :: rest =>
    match downloadStep sanitize media_dir m nowStr with
    | none => .crashed []
    | some step =>
      if fetch m.sdr_uri && (m.hdr_uri = "" || fetch m.hdr_uri) then
        match downloadLoop fetch sanitize media_dir nowStr rest with
        | .finished done => .finished (step :: done)
        | .crashed done => .crashed (step :: done)
      else .crashed []

/-- A sample remote game clip record whose SDR fetch will be made to fail. -/
def mediaB : Media :=
  { id := "B", game := "G", type := "gameclip",
    capture_dt := "2024-01-02T11-00-00+0000", download_dt := "",
    xboxnetwork := true, width := some 1920, height := some 1080,
    sdr_filesize := 9, hdr_filesize := 0, sdr_uri := "uB", hdr_uri := "" }

/-- Claim C9 counterexample: a failed fetch for one record aborts the
remaining batch.  With a fetch oracle that fails exactly on mediaB's URI and
succeeds on mediaA's, the loop over [mediaB, mediaA] crashes having
downloaded nothing: mediaA, although fetchable and still in dl_df, is never
processed, so the loop does not continue with the other records. -/
theorem download_loop_aborts_on_failure :
    downloadLoop (fun u => u ≠ "uB") id "media" "2024-02-02T00-00-00+0000"
      [mediaB, mediaA] = .crashed [] ∧
    downloadLoop (fun _ => true) id "media" "2024-02-02T00-00-00+0000"
      [mediaB, mediaA] =
      .finished [{ sdrPath := "media/G/2024-01-02T11-00-00+0000.mp4",
                   hdrPath := none,
                   utimeSecs := timestampSecs ⟨2024, 1, 2, 11, 0, 0, 0⟩ 0,
                   download_dt := "2024-02-02T00-00-00+0000" },
                 { sdrPath := "media/G/2024-01-01T10-00-00+0000.png",
                   hdrPath := none,
                   utimeSecs := timestampSecs ⟨2024, 1, 1, 10, 0, 0, 0⟩ 0,
                   download_dt := "2024-02-02T00-00-00+0000" }] := by
  constructor <;> decide

/-- The success predicate of one loop iteration: the SDR fetch succeeds and,
when an HDR companion is due, so does its fetch. -/
def fetchOk (fetch : String → Bool) (m : Media) : Bool :=
  fetch m.sdr_uri && (m.hdr_uri = "" || fetch m.hdr_uri)

/-- Claim C9 (amended): the download loop has no per-item error handling:
it performs the steps of the longest prefix of dl_df whose fetches all
succeed, and on the first failure the run crashes with exactly those steps
done — the records after the failure are not downloaded.  (Stated for
batches whose capture_dt fields all parse, as the scan guarantees.) -/
theorem download_loop_stops_at_first_failure (fetch : String → Bool)
    (sanitize : String → String) (media_dir nowStr : String)
    (ms : List Media)
    (hparse : ∀ m ∈ ms, (strptimeDtFmt m.capture_dt).isSome) :
    downloadLoop fetch sanitize media_dir nowStr ms =
      if ms.all (fetchOk fetch) then
        .finished (ms.map fun m =>
          (downloadStep sanitize media_dir m nowStr).getD
            ⟨"", none, 0, ""⟩)
      else
        .crashed ((ms.takeWhile (fetchOk fetch)).map fun m =>
          (downloadStep sanitize media_dir m nowStr).getD
            ⟨"", none, 0, ""⟩) := by
  induction ms with
  | nil => simp [downloadLoop]
  | cons m rest ih =>
    have hm := hparse m (List.mem_cons_self m rest)
    rcases hstep : downloadStep sanitize media_dir m nowStr with _ | step
    · exfalso
      unfold downloadStep at hstep
      rcases hdtp : strptimeDtFmt m.capture_dt with _ | p
      · rw [hdtp] at hm
        simp at hm
      · rw [hdtp] at hstep
        simp at hstep
    · have hrest : ∀ m2 ∈ rest, (strptimeDtFmt m2.capture_dt).isSome :=
        fun m2 h2 => hparse m2 (List.mem_cons_of_mem m h2)
      by_cases hok : fetchOk fetch m = true
      · have hok2 : (fetch m.sdr_uri && (m.hdr_uri = "" || fetch m.hdr_uri))
            = true := hok
        by_cases hall : rest.all (fetchOk fetch) = true
        · simp [downloadLoop, hstep, hok2, List.all_cons, hok, hall,
            List.takeWhile_cons, ih hrest]
        · simp only [Bool.not_eq_true] at hall
          simp [downloadLoop, hstep, hok2, List.all_cons, hok, hall,
            List.takeWhile_cons, ih hrest]
      · simp only [Bool.not_eq_true] at hok
        have hok2 : (fetch m.sdr_uri && (m.hdr_uri = "" || fetch m.hdr_uri))
            = false := hok
        simp [downloadLoop, hstep, hok2, List.all_cons, fetchOk, hok,
          List.takeWhile_cons]

/-- Concrete instance of the amended loop theorem: the failing batch from the
counterexample evaluates to the crashed outcome with the empty prefix done. -/
theorem download_loop_stops_at_first_failure_witness :
    downloadLoop (fun u => u ≠ "uB") id "media" "2024-02-02T00-00-00+0000"
      [mediaB, mediaA] =
      if ([mediaB, mediaA].all (fetchOk fun u => u ≠ "uB")) then
        .finished ([mediaB, mediaA].map fun m =>
          (downloadStep id "media" m "2024-02-02T00-00-00+0000").getD
            ⟨"", none, 0, ""⟩)
      else
        .crashed (([mediaB, mediaA].takeWhile
            (fetchOk fun u => u ≠ "uB")).map fun m =>
          (downloadStep id "media" m "2024-02-02T00-00-00+0000").getD
            ⟨"", none, 0, ""⟩) :=
  download_loop_stops_at_first_failure (fun u => u ≠ "uB") id "media"
    "2024-02-02T00-00-00+0000" [mediaB, mediaA] (by decide)

/-! ## The remote call (xbox2local.py lines 25-59)

make_api_call reads the HTTP status of the curl response and the JSON body:
status '200' returns the parsed body together with its continuationToken (or
the empty string when absent); status '202' returns the Python string '' and
an empty token (lines 48-50); any other status raises a ValueError whose
message contains the endpoint, the status, and, when present, the body's
error field prefixed by ': ' (lines 51-57). -/

/-- The parts of the parsed JSON body the program reads. -/
structure JsonBody where
  values : Option (List String)
  continuationToken : Option String
  error : Option String
  deriving Repr, DecidableEq

/-- The http_output value returned by make_api_call: either the parsed JSON
dict, or the plain string '' substituted on a 202 (line 50). -/
inductive HttpPayload where
  | obj (b : JsonBody)
  | emptyStr
  deriving Repr, DecidableEq

/-- The data carried by the ValueError of lines 56-57. -/
structure ApiError where
  endpoint : String
  status : String
  msg : String
  deriving Repr, DecidableEq

/-- make_api_call (lines 25-59) as a function of the response's status line
and parsed body. -/
def make_api_call (endpoint status : String) (body : JsonBody) :
    Except ApiError (HttpPayload × String) :=
  if status = "200" then
    .ok (.obj body,
      match body.continuationToken with
      | some t => t
      | none => "")
  else if status = "202" then
    .ok (.emptyStr, "")
  else
    .error { endpoint := endpoint, status := status,
             msg := match body.error with
                    | some e => ": " ++ e
                    | none => "" }

/-- The listing callers' subscript screens['values'] (lines 149 and 183):
defined on a dict that has the key, a KeyError on a dict without it, and a
TypeError on the plain string '' — in both failure cases an uncaught
exception, modeled by none. -/
def subscriptValues : HttpPayload → Option (List String)
  | .obj b => b.values
  | .emptyStr => none

/-- Claim C7 (status classification, and the 202 caller behaviour it gets
wrong): a 200 with a continuation marker returns the payload and that cursor;
a 200 without one returns the payload and the empty cursor; a 202 returns the
empty payload and empty cursor without raising; any other status raises a
ValueError carrying the status and the body's error message, catchable by
callers (the delete loop catches exactly this ValueError, line 275).  But the
listing callers do not treat the 202 result as nothing-new-yet: they subscript
the returned '' with 'values' (line 149), an uncaught TypeError. -/
theorem make_api_call_classification (endpoint status : String)
    (body : JsonBody) :
    (∀ t, body.continuationToken = some t →
      make_api_call endpoint "200" body = .ok (.obj body, t)) ∧
    (body.continuationToken = none →
      make_api_call endpoint "200" body = .ok (.obj body, "")) ∧
    make_api_call endpoint "202" body = .ok (.emptyStr, "") ∧
    (status ≠ "200" → status ≠ "202" →
      make_api_call endpoint status body =
        .error { endpoint := endpoint, status := status,
                 msg := match body.error with
                        | some e => ": " ++ e
                        | none => "" }) ∧
    subscriptValues .emptyStr = none := by
  refine ⟨?_, ?_, ?_, ?_, rfl⟩
  · intro t ht
    simp [make_api_call, ht]
  · intro ht
    simp [make_api_call, ht]
  · rfl
  · intro h1 h2
    simp [make_api_call, h1, h2]

/-- Concrete instance of the classification theorem: a 202 response to the
screenshots endpoint is returned as the empty payload without raising, and
the listing caller's subscript of that payload fails. -/
theorem make_api_call_classification_witness :
    make_api_call "/api/v2/dvr/screenshots" "202"
      { values := none, continuationToken := none, error := none } =
      .ok (.emptyStr, "") ∧
    make_api_call "/api/v2/dvr/screenshots" "429"
      { values := none, continuationToken := none, error := some "limit" } =
      .error { endpoint := "/api/v2/dvr/screenshots", status := "429",
               msg := ": limit" } ∧
    subscriptValues .emptyStr = none :=
  ⟨(make_api_call_classification "/api/v2/dvr/screenshots" "429"
      { values := none, continuationToken := none, error := none }).2.2.1,
   (make_api_call_classification "/api/v2/dvr/screenshots" "429"
      { values := none, continuationToken := none,
        error := some "limit" }).2.2.2.1 (by decide) (by decide),
   (make_api_call_classification "/api/v2/dvr/screenshots" "429"
      { values := none, continuationToken := none, error := none }).2.2.2.2⟩

/-! ## The expired-clip delete batch (xbox2local.py lines 259-284)

Lines 270-280: for each expired clip id, call the delete endpoint; on
success set history_df.loc[clipid, 'xboxnetwork'] = False; on ValueError the
except branch runs tqdm.write(err) and would then break.  But err is the
ValueError object itself, not a string: tqdm.write passes its argument
straight to sys.stdout.write, which requires a str, so line 279 raises
TypeError.  That exception is uncaught: the run aborts before the history
write of lines 282-284, so no deletion reaches the persisted history.  (The
inline comment at lines 276-278 says the intent was to quit gracefully,
recording the deletions that succeeded.) -/

/-- history_df.loc[clipid, 'xboxnetwork'] = False (line 274): update the
matching row; pandas .loc enlarges with a new row when the label is missing
(other cells NaN, modeled by defaults). -/
def locSetXboxnetworkFalse (hist : List HistRow) (clipid : String) :
    List HistRow :=
  if hist.any fun h => h.id = clipid then
    hist.map fun h => if h.id = clipid then { h with xboxnetwork := false }
                      else h
  else
    hist ++ [{ id := clipid, game := "", type := "", capture_dt := "",
               download_dt := "", xboxnetwork := false, width := none,
               height := none, sdr_filesize := 0, hdr_filesize := 0 }]

/-- Outcome of the delete batch together with the rest of the run: either the
loop ends (normally or via break) and the history is persisted, or an
uncaught exception aborts the run before the write of lines 282-284. -/
inductive DeleteRunOutcome where
  | persisted (file : List HistRow)
  | crashedUnsaved (inMemory : List HistRow)
  deriving Repr, DecidableEq

/-- Lines 270-284: iterate the expired clip ids; a successful delete call
marks the id in the in-memory history; the first ValueError from
make_api_call reaches tqdm.write(err), whose sys.stdout.write raises
TypeError on the non-str argument, aborting the run with nothing persisted;
if the loop finishes, the sorted history is written. -/
def deleteBatchRun (delete : String → Bool) (hist : List HistRow) :
    List String → DeleteRunOutcome
  | [] => .persisted (persistHistory hist)
  | clipid :: rest =>
    if delete clipid then
      deleteBatchRun delete (locSetXboxnetworkFalse hist clipid) rest
    else
      .crashedUnsaved hist

/-- Three sample expired-clip history rows for the delete-batch scenario. -/
def clipRow (i : String) : HistRow :=
  { id := i, game := "G", type := "gameclip",
    capture_dt := "2024-01-01T10-00-00+0000", download_dt := "",
    xboxnetwork := true, width := none, height := none,
    sdr_filesize := 1, hdr_filesize := 0 }

/-- Claim C5 (evaluated at the failing input): in a batch of three clip ids
whose second delete call returns a rate-limit error, the code marks clip 1
absent in the in-memory history and stops — but the except branch's
tqdm.write(err) raises TypeError, so the run crashes and the history file is
never written: the error is fatal to the run and even clip 1's mark is lost,
contrary to the claim's no-crash, deletions-preserved behaviour. -/
theorem delete_batch_rate_limit_crash :
    deleteBatchRun (fun i => i ≠ "c2")
      [clipRow "c1", clipRow "c2", clipRow "c3"] ["c1", "c2", "c3"] =
      .crashedUnsaved
        [{ clipRow "c1" with xboxnetwork := false },
         clipRow "c2", clipRow "c3"] ∧
    (∀ file, deleteBatchRun (fun i => i ≠ "c2")
      [clipRow "c1", clipRow "c2", clipRow "c3"] ["c1", "c2", "c3"] ≠
      .persisted file) := by
  constructor
  · decide
  · intro file h
    rw [show deleteBatchRun (fun i => i ≠ "c2")
        [clipRow "c1", clipRow "c2", clipRow "c3"] ["c1", "c2", "c3"] =
        .crashedUnsaved
          [{ clipRow "c1" with xboxnetwork := false },
           clipRow "c2", clipRow "c3"] from by decide] at h
    exact DeleteRunOutcome.noConfusion h

/-! ## The two-step confirmation gate (xbox2local.py lines 259-268)

Line 260: while delete_yn not in ['Y', 'n'], re-prompt; only the exact
strings 'Y' and 'n' leave the loop.  If the first accepted answer is 'Y',
lines 264-267 run the same loop again for the are-you-sure prompt, and the
delete loop runs only when that second accepted answer is also 'Y' (line
268).  The prompt loops are modeled over the stream of entered lines; an
input stream that never contains a valid answer keeps prompting forever. -/

/-- delete_yn in ['Y', 'n'] (lines 260 and 265). -/
def validAnswer (s : String) : Bool := s = "Y" || s = "n"

/-- One prompt loop: the first valid answer in the input stream and the rest
of the stream, if a valid answer ever arrives. -/
def firstValid : List String → Option (String × List String)
  | [] => none
  | s :: rest => if validAnswer s then some (s, rest) else firstValid rest

/-- The are-you-sure loop of lines 264-267: the accepted answer decides
whether line 268 runs the delete loop. -/
def secondPrompt (rest : List String) : Option Bool :=
  match firstValid rest with
  | none => none
  | some (a2, _) => some (a2 = "Y")

/-- Lines 259-268: some true when both prompts accept 'Y' (delete loop
runs), some false when a prompt accepts 'n' (skip), none when the stream
runs out while re-prompting. -/
def confirmGate (inputs : List String) : Option Bool :=
  match firstValid inputs with
  | none => none
  | some (a1, rest) => if a1 = "Y" then secondPrompt rest else some false

/-- The delete endpoint calls issued by the loop of lines 270-280: every id
up to and including the first failing call. -/
def deleteCalls (delete : String → Bool) : List String → List String
  | [] => []
  | i :: rest => i :: (if delete i then deleteCalls delete rest else [])

/-- Outcome of the whole expired-clips block (lines 255-284 given a nonempty
expclips_df): still prompting, declined with no delete call and the history
written as-is, or the delete batch run after both confirmations. -/
inductive ExpirationOutcome where
  | stuckPrompting
  | declined (file : List HistRow)
  | ran (calls : List String) (out : DeleteRunOutcome)
  deriving Repr, DecidableEq

/-- Lines 259-284: the confirmation gate decides whether the delete loop
runs at all. -/
def expirationPhase (inputs : List String) (delete : String → Bool)
    (hist : List HistRow) (ids : List String) : ExpirationOutcome :=
  match confirmGate inputs with
  | none => .stuckPrompting
  | some false => .declined (persistHistory hist)
  | some true => .ran (deleteCalls delete ids) (deleteBatchRun delete hist ids)

theorem confirmGate_of_firstValid {inputs : List String} {a1 : String}
    {r1 : List String} (h : firstValid inputs = some (a1, r1)) :
    confirmGate inputs = if a1 = "Y" then secondPrompt r1 else some false := by
  unfold confirmGate
  rw [h]

theorem confirmGate_of_firstValid_none {inputs : List String}
    (h : firstValid inputs = none) : confirmGate inputs = none := by
  unfold confirmGate
  rw [h]

theorem secondPrompt_of_firstValid {rest : List String} {a2 : String}
    {r2 : List String} (h : firstValid rest = some (a2, r2)) :
    secondPrompt rest = some (decide (a2 = "Y")) := by
  unfold secondPrompt
  rw [h]

theorem secondPrompt_of_firstValid_none {rest : List String}
    (h : firstValid rest = none) : secondPrompt rest = none := by
  unfold secondPrompt
  rw [h]

/-- Any prefix of invalid answers is consumed by re-prompting. -/
theorem firstValid_eq_some {inputs : List String} {a : String}
    {rest : List String} (h : firstValid inputs = some (a, rest)) :
    ∃ junk, inputs = junk ++ a :: rest ∧
      (∀ x ∈ junk, validAnswer x = false) ∧ validAnswer a = true := by
  induction inputs with
  | nil => exact Option.noConfusion h
  | cons s tl ih =>
    by_cases hv : validAnswer s = true
    · rw [firstValid, if_pos hv] at h
      obtain ⟨h1, h2⟩ : a = s ∧ rest = tl := by
        have := Option.some.inj h
        exact ⟨congrArg Prod.fst this.symm, congrArg Prod.snd this.symm⟩
      exact ⟨[], by simp [h1, h2], by simp, h1 ▸ hv⟩
    · rw [firstValid, if_neg hv] at h
      obtain ⟨junk, hj1, hj2, hj3⟩ := ih h
      refine ⟨s :: junk, by simp [hj1], ?_, hj3⟩
      intro x hx
      rcases List.mem_cons.1 hx with rfl | hx2
      · exact Bool.not_eq_true _ ▸ hv
      · exact hj2 x hx2

/-- Claim C10: the gate accepts only the exact strings Y and n — any other
entered line is consumed by re-prompting, changing nothing; an accepted n at
the first prompt skips the delete loop; an accepted n at the second prompt
skips it too; the delete loop runs only when the input stream decomposes as
invalid junk, then Y, then invalid junk, then Y; and whenever the gate does
not answer some true, zero delete calls are issued and the history is
persisted unchanged (or the run is still prompting). -/
theorem confirm_gate_spec (s : String) (rest junk : List String)
    (inputs : List String) (delete : String → Bool) (hist : List HistRow)
    (ids : List String) :
    (validAnswer s = false → confirmGate (s :: rest) = confirmGate rest) ∧
    confirmGate ("n" :: rest) = some false ∧
    ((∀ x ∈ junk, validAnswer x = false) →
      confirmGate ("Y" :: (junk ++ "n" :: rest)) = some false) ∧
    (confirmGate inputs = some true →
      ∃ junk1 junk2 tail, (∀ x ∈ junk1, validAnswer x = false) ∧
        (∀ x ∈ junk2, validAnswer x = false) ∧
        inputs = junk1 ++ "Y" :: (junk2 ++ "Y" :: tail)) ∧
    (confirmGate inputs = some false →
      expirationPhase inputs delete hist ids =
        .declined (persistHistory hist)) ∧
    (confirmGate inputs = none →
      expirationPhase inputs delete hist ids = .stuckPrompting) := by
  refine ⟨?_, ?_, ?_, ?_, ?_, ?_⟩
  · intro hv
    have hfv : firstValid (s :: rest) = firstValid rest := by
      rw [firstValid, if_neg (by simp [hv])]
    unfold confirmGate
    rw [hfv]
  · rfl
  · intro hj
    have hfv : ∀ junk2, (∀ x ∈ junk2, validAnswer x = false) →
        firstValid (junk2 ++ "n" :: rest) = some ("n", rest) := by
      intro junk2 hj2
      induction junk2 with
      | nil => rfl
      | cons a tl ih2 =>
        have ha : validAnswer a = false := hj2 a (List.mem_cons_self a tl)
        rw [List.cons_append, firstValid, if_neg (by simp [ha])]
        exact ih2 fun x hx => hj2 x (List.mem_cons_of_mem a hx)
    have hY : firstValid ("Y" :: (junk ++ "n" :: rest)) =
        some ("Y", junk ++ "n" :: rest) := rfl
    rw [confirmGate_of_firstValid hY, if_pos rfl,
      secondPrompt_of_firstValid (hfv junk hj)]
    rfl
  · intro hg
    rcases h1 : firstValid inputs with _ | ⟨a1, r1⟩
    · rw [confirmGate_of_firstValid_none h1] at hg
      exact Option.noConfusion hg
    · rw [confirmGate_of_firstValid h1] at hg
      by_cases ha1 : a1 = "Y"
      · rw [if_pos ha1] at hg
        rcases h2 : firstValid r1 with _ | ⟨a2, r2⟩
        · rw [secondPrompt_of_firstValid_none h2] at hg
          exact Option.noConfusion hg
        · rw [secondPrompt_of_firstValid h2] at hg
          simp only [Option.some.injEq, decide_eq_true_eq] at hg
          obtain ⟨junk1, hi1, hv1, _⟩ := firstValid_eq_some h1
          obtain ⟨junk2, hi2, hv2, _⟩ := firstValid_eq_some h2
          exact ⟨junk1, junk2, r2, hv1, hv2, by rw [hi1, ha1, hi2, hg]⟩
      · rw [if_neg ha1] at hg
        simp at hg
  · intro hg
    unfold expirationPhase
    rw [hg]
  · intro hg
    unfold expirationPhase
    rw [hg]

/-- Concrete instance of the gate theorem: lowercase y re-prompts, an
accepted n skips, and a some-true gate decomposes into two accepted Y
answers. -/
theorem confirm_gate_spec_witness :
    confirmGate ["y", "n"] = confirmGate ["n"] ∧
    confirmGate ["n", "Y", "Y"] = some false ∧
    confirmGate ("Y" :: (["yes"] ++ "n" :: [])) = some false ∧
    (∃ junk1 junk2 tail, (∀ x ∈ junk1, validAnswer x = false) ∧
      (∀ x ∈ junk2, validAnswer x = false) ∧
      ["y", "Y", "", "Y"] = junk1 ++ "Y" :: (junk2 ++ "Y" :: tail)) ∧
    expirationPhase ["n"] (fun _ => true) [clipRow "c1"] ["c1"] =
      .declined (persistHistory [clipRow "c1"]) :=
  ⟨(confirm_gate_spec "y" ["n"] [] [] (fun _ => true) [] []).1 (by decide),
   (confirm_gate_spec "y" ["Y", "Y"] [] [] (fun _ => true) [] []).2.1,
   (confirm_gate_spec "y" [] ["yes"] [] (fun _ => true) [] []).2.2.1
     (by decide),
   (confirm_gate_spec "y" [] [] ["y", "Y", "", "Y"]
     (fun _ => true) [] []).2.2.2.1 (by decide),
   (confirm_gate_spec "y" [] [] ["n"] (fun _ => true)
     [clipRow "c1"] ["c1"]).2.2.2.2.1 (by decide)⟩

/-! ## Legacy history schema (claim C6)

Modelled from the spec: the legacy history schema and its upgrade are code of
an earlier revision of this repository that is not part of the current
sources — xbox2local.py lines 131-136 read only the tabular history.csv, and
update.py migrates file metadata, not the history schema.  Spec section 6:
the legacy schema is a JSON object with separate arrays of previously-seen
screenshot and clip ids and no timestamps; an implementation upgrades it on
first write to the tabular schema, keeping every id, marking each present,
and fabricating no timestamp data. -/

/-- Modelled from the spec: the legacy history file, a JSON object with
separate arrays of previously-seen screenshot and game clip ids. -/
structure LegacyHistory where
  screenshot_ids : List String
  gameclip_ids : List String
  deriving Repr, DecidableEq

/-- Modelled from the spec: the upgrade of a legacy history to tabular rows —
one row per id, of the matching kind, marked still present on the network,
with empty capture and download timestamps (the legacy file has none and the
upgrade fabricates none). -/
def legacyRow (kind i : String) : HistRow :=
  { id := i, game := "", type := kind, capture_dt := "", download_dt := "",
    xboxnetwork := true, width := none, height := none,
    sdr_filesize := 0, hdr_filesize := 0 }

def upgradeLegacy (leg : LegacyHistory) : List HistRow :=
  leg.screenshot_ids.map (legacyRow "screenshot") ++
    leg.gameclip_ids.map (legacyRow "gameclip")

/-- Claim C6: loading a legacy-schema history and saving through the tabular
writer (the sort-and-write of lines 282-284) yields a tabular file with
exactly the legacy ids — every legacy id appears, marked present and with
empty timestamps, and every saved row's id comes from the legacy file, so no
previously-known id is dropped and no timestamp is fabricated. -/
theorem legacy_upgrade_preserves_ids (leg : LegacyHistory) :
    (∀ i ∈ leg.screenshot_ids ++ leg.gameclip_ids,
      ∃ r ∈ persistHistory (upgradeLegacy leg), r.id = i ∧
        r.xboxnetwork = true ∧ r.capture_dt = "" ∧ r.download_dt = "") ∧
    (∀ r ∈ persistHistory (upgradeLegacy leg),
      r.id ∈ leg.screenshot_ids ++ leg.gameclip_ids ∧
        r.xboxnetwork = true ∧ r.capture_dt = "" ∧ r.download_dt = "") := by
  constructor
  · intro i hi
    rcases List.mem_append.1 hi with hs | hc
    · refine ⟨legacyRow "screenshot" i, ?_, rfl, rfl, rfl, rfl⟩
      rw [mem_persistHistory, upgradeLegacy]
      exact List.mem_append_left _ (List.mem_map_of_mem _ hs)
    · refine ⟨legacyRow "gameclip" i, ?_, rfl, rfl, rfl, rfl⟩
      rw [mem_persistHistory, upgradeLegacy]
      exact List.mem_append_right _ (List.mem_map_of_mem _ hc)
  · intro r hr
    rw [mem_persistHistory, upgradeLegacy] at hr
    rcases List.mem_append.1 hr with hs | hc
    · obtain ⟨i, hi, rfl⟩ := List.mem_map.1 hs
      exact ⟨List.mem_append_left _ hi, rfl, rfl, rfl⟩
    · obtain ⟨i, hi, rfl⟩ := List.mem_map.1 hc
      exact ⟨List.mem_append_right _ hi, rfl, rfl, rfl⟩

/-- Concrete instance of the schema-upgrade theorem on a two-id legacy
file. -/
theorem legacy_upgrade_preserves_ids_witness :
    ∃ r ∈ persistHistory (upgradeLegacy ⟨["s1"], ["c1"]⟩), r.id = "c1" ∧
      r.xboxnetwork = true ∧ r.capture_dt = "" ∧ r.download_dt = "" :=
  (legacy_upgrade_preserves_ids ⟨["s1"], ["c1"]⟩).1 "c1" (by decide)

end Xbox2Local
